import Mathlib

/-!
Fur-Img-API: process orchestration and log rotation

A shallow embedding of `app.js` (primary and worker start-up, worker respawn,
signal handling), `src/web/server.js` (`startWebserver`) and
`src/utils/logger.js` (`rotateOldLogs`).

Every process is modelled as a computation that emits a list of observable
events (calls into the storage layer, the cluster module, the logger, the
process object) and ends in one of three ways: it returns, it throws a
JavaScript exception, or it calls `process.exit`.  The outcomes of calls into
collaborators that are not part of the embedded files are inputs of the model.
-/

namespace FurImg

/-! ## Effects -/

/-- Exceptions that travel through the embedded code. -/
inductive JsError where
  | storage
  | scan
  | web
  | typeError
  deriving DecidableEq, Repr

/-- Observable actions of a process, in the order they are performed.  A storage
or cluster event stands for a call that was made and awaited.  `uncaught e` is
Node.js reporting an exception that no handler caught, which ends the process
with exit code 1; `exit code` is a call of `process.exit`. -/
inductive Event where
  | logInfo (msg : String)
  | logWarn (msg : String)
  | logError (msg : String)
  | initDatabase
  | pragma
  | clearDatabase
  | saveToDatabase (item : Nat)
  | flush
  | close
  | fork (workerId : Nat)
  | kill (worker : Nat)
  | startWebserver
  | createRoute
  | httpListen
  | readTlsFiles
  | httpsListen
  | uncaught (e : JsError)
  | exit (code : Nat)
  deriving DecidableEq, Repr

/-- How a fragment of code ends. `exited` is `process.exit(code)`: it is not an
exception, no `catch` sees it and nothing runs after it. -/
inductive Completion (α : Type) where
  | normal (a : α)
  | threw (e : JsError)
  | exited (code : Nat)
  deriving DecidableEq, Repr

/-- A computation: the events it emitted and how it ended. -/
structure Eff (α : Type) where
  events : List Event
  completion : Completion α

namespace Eff

/-- Sequencing: the second part runs only when the first returned normally. -/
def andThen {α β : Type} (x : Eff α) (f : α → Eff β) : Eff β :=
  match x.completion with
  | .normal a => ⟨x.events ++ (f a).events, (f a).completion⟩
  | .threw e => ⟨x.events, .threw e⟩
  | .exited c => ⟨x.events, .exited c⟩

instance : Monad Eff where
  pure a := ⟨[], .normal a⟩
  bind := andThen

/-- Emit one event. -/
def emit (e : Event) : Eff Unit := ⟨[e], .normal ()⟩

/-- The JavaScript `throw`. -/
def throwJs {α : Type} (e : JsError) : Eff α := ⟨[], .threw e⟩

/-- A call into a collaborator: the call is made (event), then it returns or
throws (a rejected promise that is awaited throws at the `await`). -/
def call (e : Event) (ok : Bool) (err : JsError) : Eff Unit :=
  ⟨[e], if ok then .normal () else .threw err⟩

/-- The call `process.exit(code)`. -/
def processExit {α : Type} (code : Nat) : Eff α := ⟨[.exit code], .exited code⟩

/-- The statement `try { body } catch (e) { handler(e) }`. -/
def tryCatch {α : Type} (body : Eff α) (handler : JsError → Eff α) : Eff α :=
  match body.completion with
  | .threw e => ⟨body.events ++ (handler e).events, (handler e).completion⟩
  | .normal a => ⟨body.events, .normal a⟩
  | .exited c => ⟨body.events, .exited c⟩

end Eff

open Eff

/-! ## The scanner (src/utils/scanner.js is not among the embedded files) -/

/-- One step of a directory walk as seen by its caller: an item is handed to the
callback (with the outcome `saveOk` that `saveToDatabase` will have for it), or
the walk itself fails. -/
inductive ScanStep where
  | item (id : Nat) (saveOk : Bool)
  | walkError
  deriving DecidableEq, Repr

/-- Modelled from the spec: `scanDirectory` of src/utils/scanner.js, which is
missing.  Section 4.1: for each file it "invokes `onItem(record)`" and "must
await it before continuing"; a directory-level failure "fails the whole
operation".  Section 4.3: a write failure is propagated "upward unchanged", so
a rejected callback rejects the scan.  Per-entry failures are caught inside the
scanner and never reach the callback, so they do not appear as steps. -/
def scanDirectory (steps : List ScanStep) (onItem : Nat → Bool → Eff Unit) : Eff Unit :=
  match steps with
  | [] => pure ()
  | .item id saveOk :: rest => do
      onItem id saveOk
      scanDirectory rest onItem
  | .walkError :: _ => throwJs .scan

/-- The callback app.js passes to `scanDirectory` (lines 25-27):
`async (item) => { await saveToDatabase(mydb, item); }`. -/
def saveCallback (item : Nat) (saveOk : Bool) : Eff Unit :=
  call (.saveToDatabase item) saveOk .storage

/-- Whether a walk runs to its end: no step fails. -/
def scanOk : List ScanStep → Bool
  | [] => true
  | .item _ saveOk :: rest => saveOk && scanOk rest
  | .walkError :: _ => false

/-- The items for which the callback is invoked: those before the walk fails, up
to and including the first one whose save fails. -/
def calledItems : List ScanStep → List Nat
  | [] => []
  | .item id saveOk :: rest => if saveOk then id :: calledItems rest else [id]
  | .walkError :: _ => []

/-- The exception a failing walk ends with. -/
def scanError : List ScanStep → JsError
  | [] => .scan
  | .item _ saveOk :: rest => if saveOk then scanError rest else .storage
  | .walkError :: _ => .scan

/-! ## The cluster module as used by the primary -/

/-- The environment object passed to `cluster.fork`. -/
structure ForkEnv where
  WORKER_ID : Nat
  deriving DecidableEq, Repr

/-- The primary's view of a child process (`worker.process`).  `env` is what
reading the property `env` of that object yields; `none` is `undefined`. -/
structure ChildProcess where
  pid : Nat
  env : Option ForkEnv
  deriving DecidableEq, Repr

/-- A cluster worker object in the primary.  `spawnEnv` is not a JavaScript
property: it records the environment the child process was started with. -/
structure Worker where
  id : Nat
  process : ChildProcess
  spawnEnv : ForkEnv
  deriving DecidableEq, Repr

/-- State of the cluster module: `ids` counts the workers forked so far and
`pidOf` is the process id the operating system gives to the next children. -/
structure Cluster where
  ids : Nat
  pidOf : Nat → Nat

/-- The call `cluster.fork(env)` of Node.js.  Node increments its worker counter,
starts the child with `child_process.fork` passing `env` as a spawn option, and
wraps the returned `ChildProcess` in a worker object.  A `ChildProcess` exposes
`pid`, `connected`, `exitCode`, `killed`, `signalCode`, `spawnargs`,
`spawnfile` and the stdio streams; the spawn environment is handed to the
operating system and is not kept on the object, so `process.env` of a worker
object in the primary is `undefined`. -/
def Cluster.fork (c : Cluster) (env : ForkEnv) : Eff (Worker × Cluster) := do
  emit (.fork env.WORKER_ID)
  let id := c.ids + 1
  pure ({ id := id, process := { pid := c.pidOf id, env := none }, spawnEnv := env },
        { c with ids := id })

/-! ## app.js, primary branch -/

/-- The value `config.workers || os.cpus().length`: a missing or zero
`config.workers` is falsy and selects the CPU count. -/
def numWorkers (configWorkers : Option Nat) (cpus : Nat) : Nat :=
  match configWorkers with
  | some w => if w ≠ 0 then w else cpus
  | none => cpus

/-- Outcomes of the collaborator calls made by the primary's start-up. -/
structure PrimaryEnv where
  initDatabaseOk : Bool
  pragmaOk : Bool
  clearDatabaseOk : Bool
  scan : List ScanStep
  flushOk : Bool
  closeOk : Bool
  deriving DecidableEq, Repr

/-- Every collaborator call of the start-up succeeds. -/
def PrimaryEnv.allOk (env : PrimaryEnv) : Bool :=
  env.initDatabaseOk && env.pragmaOk && env.clearDatabaseOk && scanOk env.scan &&
    env.flushOk && env.closeOk

/-- The exception the `try` block ends with when a call fails. -/
def primaryError (env : PrimaryEnv) : JsError :=
  if env.initDatabaseOk && env.pragmaOk && env.clearDatabaseOk then
    (if scanOk env.scan then .storage else scanError env.scan)
  else .storage

/-- Whether an event is a call of `process.exit`. -/
def Event.isExit : Event → Bool
  | .exit _ => true
  | _ => false

/-- Whether an event is a call of `cluster.fork`. -/
def Event.isFork : Event → Bool
  | .fork _ => true
  | _ => false

/-- The body of the primary's `try` block (app.js lines 18-33). -/
def primaryTryBody (env : PrimaryEnv) : Eff Unit := do
  call .initDatabase env.initDatabaseOk .storage
  call .pragma env.pragmaOk .storage
  call .clearDatabase env.clearDatabaseOk .storage
  emit (.logInfo "[Master] Database initialized and cleared")
  emit (.logInfo "[Master] Starting to scan directory: %s")
  scanDirectory env.scan saveCallback
  call .flush env.flushOk .storage
  emit (.logInfo "[Master] Finished scanning: %s")
  call .close env.closeOk .storage
  emit (.logInfo "[Master] Database scanning completed, starting workers...")

/-- The primary's `try`/`catch` (app.js lines 17-37). -/
def primaryInit (env : PrimaryEnv) : Eff Unit :=
  tryCatch (primaryTryBody env) (fun _ => do
    emit (.logError "[Master] Error during initialization and scanning")
    processExit 1)

/-- The loop `for (let i = 0; i < numWorkers; i++)` of app.js lines 41-44;
`remaining` is `numWorkers - i`. -/
def forkLoop : (remaining : Nat) → (i : Nat) → Cluster → List Worker → Eff (List Worker × Cluster)
  | 0, _, c, workers => pure (workers, c)
  | remaining + 1, i, c, workers => do
      let (worker, c1) ← c.fork { WORKER_ID := i + 1 }
      forkLoop remaining (i + 1) c1 (workers ++ [worker])

/-- A timer registered with `setTimeout`: its delay in milliseconds and what its
callback does when it fires. -/
structure Timer where
  delay : Nat
  callback : Eff Unit

/-- The primary's mutable state once the start-up code has run: the cluster
module, the `workers` array and the pending timers. -/
structure Primary where
  cluster : Cluster
  workers : List Worker
  timers : List Timer

/-- The primary branch of app.js up to the registration of its handlers
(lines 14-44). -/
def primaryMain (configWorkers : Option Nat) (cpus : Nat) (env : PrimaryEnv) (c : Cluster) :
    Eff Primary := do
  emit (.logInfo s!"[Master] Starting with {numWorkers configWorkers cpus} workers")
  primaryInit env
  let (workers, c1) ← forkLoop (numWorkers configWorkers cpus) 0 c []
  pure { cluster := c1, workers := workers, timers := [] }

/-- The text of `signal || code` in a template string: the signal name when
there is one, otherwise the exit code. -/
def exitReason (code : Option Nat) (signal : Option String) : String :=
  match signal, code with
  | some sig, some n => if sig ≠ "" then sig else toString n
  | some sig, none => if sig ≠ "" then sig else "null"
  | none, some n => toString n
  | none, none => "null"

/-- The expression `worker.process.env.WORKER_ID` evaluated in the primary:
reading a property of `undefined` throws a `TypeError`. -/
def readWorkerId (worker : Worker) : Eff Nat :=
  match worker.process.env with
  | some env => pure env.WORKER_ID
  | none => throwJs .typeError

/-- The handler of the cluster `exit` event (app.js lines 47-54). -/
def onWorkerExit (s : Primary) (worker : Worker) (code : Option Nat) (signal : Option String) :
    Eff Primary := do
  emit (.logWarn
    s!"[Master] Worker {worker.process.pid} died ({exitReason code signal}). Restarting...")
  let workerId ← readWorkerId worker
  let (newWorker, c1) ← s.cluster.fork { WORKER_ID := workerId }
  let index := s.workers.findIdx? (fun w => w.id == worker.id)
  match index with
  | some i => pure { s with cluster := c1, workers := s.workers.set i newWorker }
  | none => pure { s with cluster := c1 }

/-- The loop `for (const worker of workers) { worker.kill(); }`. -/
def killAll : List Worker → Eff Unit
  | [] => pure ()
  | worker :: rest => do
      emit (.kill worker.id)
      killAll rest

/-- The callback both signal handlers pass to `setTimeout`
(app.js lines 62-65 and 73-76). -/
def exitCallback : Eff Unit := do
  emit (.logInfo "[Master] Process exit")
  processExit 0

/-- The primary's `SIGINT` handler (app.js lines 57-66). -/
def onSIGINT (s : Primary) : Eff Primary := do
  emit (.logInfo "[Master] Received SIGINT, shutting down workers...")
  killAll s.workers
  pure { s with timers := s.timers ++ [{ delay := 1000, callback := exitCallback }] }

/-- The primary's `SIGTERM` handler (app.js lines 68-77). -/
def onSIGTERM (s : Primary) : Eff Primary := do
  emit (.logInfo "[Master] Received SIGTERM, shutting down workers...")
  killAll s.workers
  pure { s with timers := s.timers ++ [{ delay := 1000, callback := exitCallback }] }

/-- A listener run by the primary's event loop.  The listeners of app.js contain
no `try`/`catch` and the primary branch registers no `uncaughtException`
handler, so an exception that escapes a listener is uncaught: Node.js reports
it and the primary ends with exit code 1. -/
def uncaughtEndsProcess {α : Type} (r : Eff α) : Eff α :=
  match r.completion with
  | .threw e => ⟨r.events ++ [.uncaught e], .exited 1⟩
  | _ => r

/-- What the primary's event loop can deliver once the start-up code has run: a
signal, the `exit` event of a worker, or the expiry of the oldest pending
timer. -/
inductive Occurrence where
  | sigint
  | sigterm
  | workerExit (worker : Worker) (code : Option Nat) (signal : Option String)
  | timerFires
  deriving DecidableEq, Repr

/-- Whether an occurrence is SIGINT or SIGTERM. -/
def Occurrence.isSignal : Occurrence → Bool
  | .sigint | .sigterm => true
  | _ => false

/-- One turn of the primary's event loop: the listener registered for the
occurrence runs (app.js lines 47, 57, 68, and the `setTimeout` callback). -/
def dispatch (s : Primary) : Occurrence → Eff Primary
  | .sigint => uncaughtEndsProcess (onSIGINT s)
  | .sigterm => uncaughtEndsProcess (onSIGTERM s)
  | .workerExit worker code signal => uncaughtEndsProcess (onWorkerExit s worker code signal)
  | .timerFires =>
    match s.timers with
    | [] => pure s
    | timer :: rest => uncaughtEndsProcess (do
        timer.callback
        pure { s with timers := rest })

/-- The primary after start-up, handling occurrences one after the other until
the process ends. -/
def runPrimary (s : Primary) : List Occurrence → Eff Primary
  | [] => pure s
  | o :: rest => do
      let s1 ← dispatch s o
      runPrimary s1 rest

/-! ## src/web/server.js -/

/-- Outcomes of the collaborator calls made by a worker's start-up, and the
configuration flag `config.server.ssl.enable`. -/
structure WorkerEnv where
  initDatabaseOk : Bool
  pragmaOk : Bool
  createRouteOk : Bool
  httpOk : Bool
  sslEnable : Bool
  readTlsOk : Bool
  httpsOk : Bool
  deriving DecidableEq, Repr

/-- The inner function `createWebServer` of server.js (lines 12-32): the whole
body sits in a `try` whose `catch` logs and calls `process.exit(1)`.
`httpListen` stands for `http.createServer` and `listen`, `readTlsFiles` for
the two `fs.readFileSync` calls, `httpsListen` for `https.createServer` and
`listen`. -/
def createWebServer (env : WorkerEnv) : Eff Unit :=
  tryCatch
    (do
      call .httpListen env.httpOk .web
      if env.sslEnable then
        call .readTlsFiles env.readTlsOk .web
        call .httpsListen env.httpsOk .web)
    (fun _ => do
      emit (.logError "failed to start server:")
      processExit 1)

/-- The body of `startWebserver` (server.js lines 33-34). -/
def startWebserverBody (env : WorkerEnv) : Eff Unit := do
  call .createRoute env.createRouteOk .web
  createWebServer env

/-- The state of the promise an `async` function returns. -/
inductive Promise where
  | fulfilled
  | rejected (e : JsError)
  deriving DecidableEq, Repr

/-- The function `startWebserver` of server.js (line 11).  It is declared
`async` and contains no `await`: a call runs the whole body, and an exception
thrown by the body does not reach the caller but rejects the returned
promise. -/
def startWebserver (env : WorkerEnv) : Eff Promise :=
  let body := startWebserverBody env
  match body.completion with
  | .normal _ => ⟨.startWebserver :: body.events, .normal .fulfilled⟩
  | .threw e => ⟨.startWebserver :: body.events, .normal (.rejected e)⟩
  | .exited c => ⟨.startWebserver :: body.events, .exited c⟩

/-! ## app.js, worker branch -/

/-- The body of the worker's `try` block (app.js lines 98-106).  The call
`startWebserver(config, mydb)` is not awaited; the promise it returns is the
value of this computation so that it stays observable. -/
def workerTryBody (env : WorkerEnv) : Eff Promise := do
  emit (.logInfo "Worker started")
  call .initDatabase env.initDatabaseOk .storage
  call .pragma env.pragmaOk .storage
  let promise ← startWebserver env
  emit (.logInfo "Web server started")
  pure promise

/-- The worker's `try`/`catch` (app.js lines 97-111). -/
def workerMain (env : WorkerEnv) : Eff Promise :=
  tryCatch (workerTryBody env) (fun _ => do
    emit (.logError "Error starting web server")
    processExit 1)

/-- The worker's `uncaughtException` handler (app.js lines 113-115): it logs and
does not exit. -/
def onUncaughtException : Eff Unit :=
  emit (.logError "Uncaught exception")

/-! ## src/utils/logger.js, log rotation -/

/-- The file system as `rotateOldLogs` sees it: `listing` is what `fs.readdir`
resolves to (`none` when it rejects), `mtime name` is
`fs.statSync(join(logPath, name)).mtime.getTime()` (`none` when `statSync`
throws) and `removable name` tells whether `fs.remove` of that file succeeds. -/
structure LogDir where
  listing : Option (List String)
  mtime : String → Option Int
  removable : String → Bool

/-- The filter `f.startsWith('app-') && f.endsWith('.log')`. -/
def isLogName (f : String) : Bool :=
  "app-".data.isPrefixOf f.data && ".log".data.isSuffixOf f.data

/-- An element of `logFiles`; `path` is `join(logPath, name)` and is determined
by `name`. -/
structure LogFile where
  name : String
  time : Int
  deriving DecidableEq, Repr

/-- The `.map` step that builds the `name`, `path`, `time` records: `statSync`
is called for each name in order and the first failure throws. -/
def statAll (dir : LogDir) : List String → Option (List LogFile)
  | [] => some []
  | f :: rest =>
    match dir.mtime f with
    | none => none
    | some t => (statAll dir rest).map (fun files => { name := f, time := t } :: files)

/-- The comparator `(a, b) => b.time - a.time`. -/
def compareTime (a b : LogFile) : Int := b.time - a.time

/-- The step `.sort((a, b) => b.time - a.time)`: `Array.prototype.sort` is
stable and puts `a` before `b` when the comparator is not positive. -/
def sortByTime (files : List LogFile) : List LogFile :=
  files.insertionSort (fun a b => compareTime a b ≤ 0)

/-- What a run of `rotateOldLogs` did: the files it removed, in order, and
whether its `catch` branch ran. -/
structure Rotation where
  removed : List String
  failed : Bool
  deriving DecidableEq, Repr

/-- The loop `for (const file of filesToDelete) await fs.remove(file.path)`: the
first failing removal throws and ends the loop. -/
def removeLoop (dir : LogDir) : List LogFile → Rotation
  | [] => { removed := [], failed := false }
  | file :: rest =>
    if dir.removable file.name then
      let r := removeLoop dir rest
      { removed := file.name :: r.removed, failed := r.failed }
    else
      { removed := [], failed := true }

/-- The function `rotateOldLogs` of logger.js (lines 66-87). -/
def rotateOldLogs (dir : LogDir) (maxFiles : Nat) : Rotation :=
  match dir.listing with
  | none => { removed := [], failed := true }
  | some files =>
    match statAll dir (files.filter isLogName) with
    | none => { removed := [], failed := true }
    | some stats =>
      let logFiles := sortByTime stats
      if logFiles.length > maxFiles then
        removeLoop dir (logFiles.drop maxFiles)
      else
        { removed := [], failed := false }

/-- The value `config.log?.maxFiles || 7` of `initLogger` (line 97). -/
def initLoggerMaxFiles (configMaxFiles : Option Nat) : Nat :=
  match configMaxFiles with
  | some n => if n ≠ 0 then n else 7
  | none => 7

/-- The rotation step of `initLogger` (lines 145-147):
`if (enableFile && maxFiles > 0) await rotateOldLogs(logPath, maxFiles)`. -/
def initLoggerRotation (enableFile : Bool) (configMaxFiles : Option Nat) (dir : LogDir) :
    Option Rotation :=
  if enableFile && decide (initLoggerMaxFiles configMaxFiles > 0) then
    some (rotateOldLogs dir (initLoggerMaxFiles configMaxFiles))
  else
    none

/-- The worker object returned by call number `k` (counted from 0) of
`cluster.fork` in a fork loop that starts at loop index `i` with cluster state
`c`: it was started with `WORKER_ID = i + k + 1`. -/
def spawned (c : Cluster) (i k : Nat) : Worker :=
  { id := c.ids + k + 1
    process := { pid := c.pidOf (c.ids + k + 1), env := none }
    spawnEnv := { WORKER_ID := i + k + 1 } }

/-- The storage and cluster events of a trace (logger and process events are
dropped). -/
def Event.isStorageOrCluster : Event → Bool
  | .initDatabase | .pragma | .clearDatabase | .saveToDatabase _ | .flush | .close
  | .fork _ => true
  | _ => false

/-- Position of a storage or cluster event in the start-up sequence. -/
def Event.phase : Event → Nat
  | .initDatabase => 0
  | .pragma => 1
  | .clearDatabase => 2
  | .saveToDatabase _ => 3
  | .flush => 4
  | .close => 5
  | .fork _ => 6
  | _ => 7

/-- A start-up environment in which every call succeeds and the scan finds two
items. -/
def sampleEnv : PrimaryEnv :=
  { initDatabaseOk := true, pragmaOk := true, clearDatabaseOk := true,
    scan := [.item 7 true, .item 8 true], flushOk := true, closeOk := true }

/-- A cluster module that has forked nothing yet. -/
def sampleCluster : Cluster := { ids := 0, pidOf := fun i => 1000 + i }

/-- The primary's state after the sample start-up with two workers. -/
def sampleRunning : Primary :=
  { cluster := { ids := 2, pidOf := fun i => 1000 + i }
    workers := [spawned sampleCluster 0 0, spawned sampleCluster 0 1]
    timers := [] }

/-- Whether the body of `createWebServer` throws: the `http.createServer` or
`listen` call throws or, with TLS enabled, a `fs.readFileSync` of the key or
certificate throws or the `https.createServer` or `listen` call throws.  A bind
failure that Node.js reports later as an `error` event is not a throw of the
body. -/
def WorkerEnv.serverThrows (env : WorkerEnv) : Bool :=
  !env.httpOk || (env.sslEnable && (!env.readTlsOk || !env.httpsOk))

/-- A worker environment in which every call succeeds, with TLS enabled. -/
def sampleWorkerEnv : WorkerEnv :=
  { initDatabaseOk := true, pragmaOk := true, createRouteOk := true, httpOk := true,
    sslEnable := true, readTlsOk := true, httpsOk := true }

/-- A log directory listing: four matching files and two others. -/
def sampleLogNames : List String :=
  ["app-1.log", "notes.txt", "app-2.log", "app-3.log", "app-4.log.gz", "app-5.log"]

/-- A log directory in which every call succeeds; `app-2.log` and `app-5.log`
are the most recent files. -/
def sampleLogDir : LogDir :=
  { listing := some sampleLogNames
    mtime := fun f =>
      if f = "app-1.log" then some 10 else if f = "app-3.log" then some 20 else some 30
    removable := fun _ => true }

/-- The sample log directory with `app-3.log` a dangling symbolic link:
`statSync` throws for it. -/
def brokenLogDir : LogDir :=
  { sampleLogDir with
    mtime := fun f => if f = "app-3.log" then none else sampleLogDir.mtime f }

/-- The sample log directory with `app-3.log` not removable: `fs.remove`
rejects for it. -/
def stuckLogDir : LogDir :=
  { sampleLogDir with removable := fun f => !(f = "app-3.log") }

/-- The names left in the directory after the listed files were removed. -/
def remainingFiles (files removed : List String) : List String :=
  files.filter (fun f => !removed.contains f)

/-! ## Lemmas on the scanner and the primary's start-up -/

theorem scan_events (steps : List ScanStep) :
    (scanDirectory steps saveCallback).events = (calledItems steps).map Event.saveToDatabase := by
  induction steps with
  | nil => rfl
  | cons s rest ih =>
    cases s with
    | walkError => rfl
    | item id ok =>
      cases ok
      · simp [scanDirectory, saveCallback, call, calledItems, bind, andThen]
      · simp [scanDirectory, saveCallback, call, calledItems, bind, andThen, ih]

theorem scan_completion (steps : List ScanStep) :
    (scanDirectory steps saveCallback).completion =
      if scanOk steps then .normal () else .threw (scanError steps) := by
  induction steps with
  | nil => rfl
  | cons s rest ih =>
    cases s with
    | walkError => rfl
    | item id ok =>
      cases ok
      · simp [scanDirectory, saveCallback, call, scanOk, scanError, bind, andThen]
      · simp [scanDirectory, saveCallback, call, scanOk, scanError, bind, andThen, ih]

theorem primaryTryBody_completion (env : PrimaryEnv) :
    (primaryTryBody env).completion =
      if env.allOk then .normal () else .threw (primaryError env) := by
  rcases env with ⟨a, b, c, scan, f, g⟩
  cases a <;> cases b <;> cases c <;> cases f <;> cases g <;> cases h : scanOk scan <;>
    simp [primaryTryBody, PrimaryEnv.allOk, primaryError, call, emit, bind, andThen,
      scan_completion, scan_events, h]

theorem primaryTryBody_events_ok (env : PrimaryEnv) (h : env.allOk = true) :
    (primaryTryBody env).events =
      [.initDatabase, .pragma, .clearDatabase,
        .logInfo "[Master] Database initialized and cleared",
        .logInfo "[Master] Starting to scan directory: %s"]
      ++ (calledItems env.scan).map Event.saveToDatabase
      ++ [.flush, .logInfo "[Master] Finished scanning: %s", .close,
        .logInfo "[Master] Database scanning completed, starting workers..."] := by
  rcases env with ⟨a, b, c, scan, f, g⟩
  simp [PrimaryEnv.allOk] at h
  obtain ⟨⟨⟨⟨⟨rfl, rfl⟩, rfl⟩, hs⟩, rfl⟩, rfl⟩ := h
  simp [primaryTryBody, call, emit, bind, andThen, scan_completion, scan_events, hs]

theorem primaryTryBody_no_fork (env : PrimaryEnv) :
    ∀ e ∈ (primaryTryBody env).events, e.isFork = false := by
  rcases env with ⟨a, b, c, scan, f, g⟩
  cases a <;> cases b <;> cases c <;> cases f <;> cases g <;> cases h : scanOk scan <;>
    simp [primaryTryBody, call, emit, bind, andThen, scan_completion, scan_events, h,
      Event.isFork]
  all_goals
    intro e he
    rcases he with ⟨_, _, rfl⟩ | he
    · rfl
    · rcases he with rfl | rfl | rfl | rfl <;> rfl

theorem forkLoop_eq (r : Nat) : ∀ (i : Nat) (c : Cluster) (ws : List Worker),
    forkLoop r i c ws =
      ⟨(List.range r).map (fun k => Event.fork (i + k + 1)),
        .normal (ws ++ (List.range r).map (spawned c i), { c with ids := c.ids + r })⟩ := by
  induction r with
  | zero => intro i c ws; simp [forkLoop, pure]
  | succ r ih =>
    intro i c ws
    simp only [forkLoop, Cluster.fork, emit, bind, andThen, pure, ih, List.range_succ_eq_map,
      List.map_cons, List.map_map]
    simp [spawned, Function.comp_def, Nat.add_assoc, Nat.add_comm 1]

theorem primaryMain_ok (cw : Option Nat) (cpus : Nat) (env : PrimaryEnv) (c : Cluster)
    (h : env.allOk = true) :
    primaryMain cw cpus env c =
      ⟨[.logInfo s!"[Master] Starting with {numWorkers cw cpus} workers"]
          ++ (primaryTryBody env).events
          ++ (List.range (numWorkers cw cpus)).map (fun k => Event.fork (k + 1)),
        .normal { cluster := { c with ids := c.ids + numWorkers cw cpus }
                  workers := (List.range (numWorkers cw cpus)).map (spawned c 0)
                  timers := [] }⟩ := by
  simp [primaryMain, primaryInit, Eff.tryCatch, primaryTryBody_completion, h, emit, bind,
    andThen, pure, forkLoop_eq]

theorem primaryMain_fail (cw : Option Nat) (cpus : Nat) (env : PrimaryEnv) (c : Cluster)
    (h : env.allOk = false) :
    primaryMain cw cpus env c =
      ⟨[.logInfo s!"[Master] Starting with {numWorkers cw cpus} workers"]
          ++ (primaryTryBody env).events
          ++ [.logError "[Master] Error during initialization and scanning", .exit 1],
        .exited 1⟩ := by
  simp [primaryMain, primaryInit, Eff.tryCatch, primaryTryBody_completion, h, emit, bind,
    andThen, pure, processExit]

theorem allOk_of_normal (cw : Option Nat) (cpus : Nat) (env : PrimaryEnv) (c : Cluster)
    (p : Primary) (h : (primaryMain cw cpus env c).completion = .normal p) :
    env.allOk = true := by
  cases hok : env.allOk with
  | true => rfl
  | false => rw [primaryMain_fail cw cpus env c hok] at h; cases h

theorem count_map_zero {α : Type} (f : α → Event) (l : List α) (e : Event)
    (h : ∀ x, f x ≠ e) : (l.map f).count e = 0 :=
  List.count_eq_zero.mpr (by simp [h])

theorem storage_trace_ok (cw : Option Nat) (cpus : Nat) (env : PrimaryEnv) (c : Cluster)
    (h : env.allOk = true) :
    (primaryMain cw cpus env c).events.filter Event.isStorageOrCluster =
      [.initDatabase, .pragma, .clearDatabase]
        ++ (calledItems env.scan).map Event.saveToDatabase
        ++ [.flush, .close]
        ++ (List.range (numWorkers cw cpus)).map (fun k => Event.fork (k + 1)) := by
  rw [primaryMain_ok cw cpus env c h, primaryTryBody_events_ok env h]
  simp [List.filter_append, List.filter_map, Event.isStorageOrCluster, Function.comp_def]


theorem primaryTryBody_not_exit (env : PrimaryEnv) :
    ∀ e ∈ (primaryTryBody env).events, e.isExit = false := by
  rcases env with ⟨a, b, c, scan, f, g⟩
  cases a <;> cases b <;> cases c <;> cases f <;> cases g <;> cases h : scanOk scan <;>
    simp [primaryTryBody, call, emit, bind, andThen, scan_completion, scan_events, h,
      Event.isExit]
  all_goals
    intro e he
    rcases he with ⟨_, _, rfl⟩ | he
    · rfl
    · rcases he with rfl | rfl | rfl | rfl <;> rfl

/-! ## Claims on the primary's start-up -/

/-- C1: in every successful run of the primary's start-up the storage and
cluster calls happen in the order initDatabase, pragma, clearDatabase, the
saveToDatabase calls of the scan callback, flush, close, and then the forks:
clearDatabase precedes the first save, every save precedes flush, flush (like
clearDatabase and close) is called exactly once, close follows flush and no
fork precedes close. -/
theorem primary_startup_trace_ordered (cw : Option Nat) (cpus : Nat) (env : PrimaryEnv)
    (c : Cluster) (p : Primary)
    (h : (primaryMain cw cpus env c).completion = .normal p) :
    (primaryMain cw cpus env c).events.filter Event.isStorageOrCluster =
        [.initDatabase, .pragma, .clearDatabase]
          ++ (calledItems env.scan).map Event.saveToDatabase
          ++ [.flush, .close]
          ++ (List.range (numWorkers cw cpus)).map (fun k => Event.fork (k + 1))
      ∧ ((primaryMain cw cpus env c).events.filter Event.isStorageOrCluster).Pairwise
          (fun a b => a.phase ≤ b.phase)
      ∧ ((primaryMain cw cpus env c).events.filter Event.isStorageOrCluster).count
          .clearDatabase = 1
      ∧ ((primaryMain cw cpus env c).events.filter Event.isStorageOrCluster).count .flush = 1
      ∧ ((primaryMain cw cpus env c).events.filter Event.isStorageOrCluster).count .close = 1 := by
  have hok := allOk_of_normal cw cpus env c p h
  rw [storage_trace_ok cw cpus env c hok]
  refine ⟨rfl, ?_, ?_, ?_, ?_⟩
  · simp only [List.pairwise_append, List.pairwise_map, List.pairwise_cons, List.mem_append,
      List.mem_map, List.mem_cons, List.mem_range]
    simp only [Event.phase]
    refine ⟨⟨⟨⟨?_, ?_, ?_, ?_⟩, ?_, ?_⟩, ?_, ?_⟩, ?_, ?_⟩ <;>
      first
        | exact List.pairwise_of_forall (fun _ _ => Nat.le_refl _)
        | (simp; done)
        | (intro a ha; aesop)
  · rw [List.count_append, List.count_append, List.count_append,
      count_map_zero _ _ _ (by simp), count_map_zero _ _ _ (by simp)]; rfl
  · rw [List.count_append, List.count_append, List.count_append,
      count_map_zero _ _ _ (by simp), count_map_zero _ _ _ (by simp)]; rfl
  · rw [List.count_append, List.count_append, List.count_append,
      count_map_zero _ _ _ (by simp), count_map_zero _ _ _ (by simp)]; rfl

theorem primary_startup_trace_ordered_witness :
    (primaryMain (some 2) 4 sampleEnv sampleCluster).completion =
        .normal sampleRunning
      ∧ (primaryMain (some 2) 4 sampleEnv sampleCluster).events.filter
          Event.isStorageOrCluster =
        [.initDatabase, .pragma, .clearDatabase, .saveToDatabase 7, .saveToDatabase 8,
          .flush, .close, .fork 1, .fork 2] :=
  ⟨rfl, (primary_startup_trace_ordered (some 2) 4 sampleEnv sampleCluster _ rfl).1⟩

/-- C2: when any of initDatabase, the journal-mode pragma, clearDatabase,
scanDirectory (a failing saveToDatabase in its callback included), flush or
close fails, the primary logs the initialization error, its last action is
`process.exit(1)`, and `cluster.fork` is never called. -/
theorem primary_failure_exits (cw : Option Nat) (cpus : Nat) (env : PrimaryEnv) (c : Cluster)
    (h : env.initDatabaseOk = false ∨ env.pragmaOk = false ∨ env.clearDatabaseOk = false ∨
      scanOk env.scan = false ∨ env.flushOk = false ∨ env.closeOk = false) :
    (primaryMain cw cpus env c).completion = .exited 1
      ∧ Event.logError "[Master] Error during initialization and scanning" ∈
          (primaryMain cw cpus env c).events
      ∧ (primaryMain cw cpus env c).events.getLast? = some (.exit 1)
      ∧ (primaryMain cw cpus env c).events.count (.exit 1) = 1
      ∧ (primaryMain cw cpus env c).events.filter Event.isFork = [] := by
  have hok : env.allOk = false := by
    rcases env with ⟨a, b, d, scan, f, g⟩
    simp only [PrimaryEnv.allOk]
    rcases h with h | h | h | h | h | h <;> simp_all
  rw [primaryMain_fail cw cpus env c hok]
  refine ⟨rfl, by simp, ?_, ?_, ?_⟩
  · rw [show ∀ (l : List Event) (x y : Event), l ++ [x, y] = (l ++ [x]) ++ [y] from
      fun l x y => by simp, List.getLast?_concat]
  · have hz : (primaryTryBody env).events.count (.exit 1) = 0 :=
      List.count_eq_zero.mpr (fun hmem => by
        have := primaryTryBody_not_exit env _ hmem
        simp [Event.isExit] at this)
    simp [List.count_append, List.count_cons, hz]
  · simp only [List.filter_append]
    have hf : (primaryTryBody env).events.filter Event.isFork = [] :=
      List.filter_eq_nil_iff.mpr (fun e he => by simp [primaryTryBody_no_fork env e he])
    simp [hf, Event.isFork]

theorem primary_failure_exits_witness :
    scanOk [.item 7 true, .item 8 false, .item 9 true] = false
      ∧ (primaryMain (some 2) 4
          { sampleEnv with scan := [.item 7 true, .item 8 false, .item 9 true] }
          sampleCluster).events.filter Event.isFork = [] :=
  ⟨rfl, (primary_failure_exits (some 2) 4
    { sampleEnv with scan := [.item 7 true, .item 8 false, .item 9 true] } sampleCluster
    (Or.inr (Or.inr (Or.inr (Or.inl rfl))))).2.2.2.2⟩

/-- C3, as stated, fails: with `config.workers = 0` the claim's worker count is
the configured value 0, but the primary forks one worker per CPU. -/
theorem fork_count_configured_zero :
    ¬ ((primaryMain (some 0) 4 sampleEnv sampleCluster).events.filter Event.isFork).length
        = Option.getD (some 0) 4 := by
  decide

/-- C3, amended: with `N` the configured `config.workers` when that is set and
not zero, and the CPU count when it is missing or zero, a successful start-up
calls `cluster.fork` exactly `N` times, call number `k` passing
`WORKER_ID = k`, and the `workers` list then has exactly `N` entries, entry `k`
being the worker object returned by call `k`, started with identity `k`. -/
theorem spawning_forks_numWorkers (cw : Option Nat) (cpus : Nat) (env : PrimaryEnv)
    (c : Cluster) (p : Primary)
    (h : (primaryMain cw cpus env c).completion = .normal p) :
    (∀ w, cw = some w → w ≠ 0 → numWorkers cw cpus = w)
      ∧ (cw = none ∨ cw = some 0 → numWorkers cw cpus = cpus)
      ∧ (primaryMain cw cpus env c).events.filter Event.isFork =
          (List.range (numWorkers cw cpus)).map (fun k => Event.fork (k + 1))
      ∧ p.workers = (List.range (numWorkers cw cpus)).map (spawned c 0)
      ∧ p.workers.length = numWorkers cw cpus
      ∧ ∀ k, k < numWorkers cw cpus →
          (p.workers.get? k).map (fun w => w.spawnEnv.WORKER_ID) = some (k + 1) := by
  have hok := allOk_of_normal cw cpus env c p h
  have hp : p.workers = (List.range (numWorkers cw cpus)).map (spawned c 0) := by
    rw [primaryMain_ok cw cpus env c hok] at h
    cases h
    rfl
  refine ⟨?_, ?_, ?_, hp, ?_, ?_⟩
  · rintro w rfl hw
    simp [numWorkers, hw]
  · rintro (rfl | rfl) <;> simp [numWorkers]
  · rw [primaryMain_ok cw cpus env c hok]
    have hf : (primaryTryBody env).events.filter Event.isFork = [] :=
      List.filter_eq_nil_iff.mpr (fun e he => by simp [primaryTryBody_no_fork env e he])
    simp [List.filter_append, hf, Event.isFork, List.filter_map, Function.comp_def]
  · simp [hp]
  · intro k hk
    simp [hp, List.getElem?_map, List.getElem?_range hk, spawned]

theorem spawning_forks_numWorkers_witness :
    (primaryMain (some 2) 4 sampleEnv sampleCluster).completion =
        .normal sampleRunning
      ∧ (primaryMain (some 2) 4 sampleEnv sampleCluster).events.filter Event.isFork =
          [.fork 1, .fork 2] :=
  ⟨rfl, (spawning_forks_numWorkers (some 2) 4 sampleEnv sampleCluster _ rfl).2.2.1⟩

/-! ## Lemmas on the primary's handlers -/

theorem onWorkerExit_undefined_env (s : Primary) (w : Worker) (code : Option Nat)
    (signal : Option String) (h : w.process.env = none) :
    onWorkerExit s w code signal =
      ⟨[.logWarn
          s!"[Master] Worker {w.process.pid} died ({exitReason code signal}). Restarting..."],
        .threw .typeError⟩ := by
  simp [onWorkerExit, readWorkerId, h, emit, throwJs, bind, andThen]

theorem onWorkerExit_events (s : Primary) (w : Worker) (code : Option Nat)
    (signal : Option String) (e : ForkEnv) (h : w.process.env = some e) :
    (onWorkerExit s w code signal).events =
      [.logWarn
          s!"[Master] Worker {w.process.pid} died ({exitReason code signal}). Restarting...",
        .fork e.WORKER_ID] := by
  simp only [onWorkerExit, readWorkerId, h, Cluster.fork, emit, bind, andThen, pure]
  cases List.findIdx? (fun x => x.id == w.id) s.workers <;> simp

theorem onWorkerExit_completion (s : Primary) (w : Worker) (code : Option Nat)
    (signal : Option String) (e : ForkEnv) (h : w.process.env = some e) :
    ∃ s1, (onWorkerExit s w code signal).completion = .normal s1 ∧
      s1.workers =
        match s.workers.findIdx? (fun x => x.id == w.id) with
        | some i => s.workers.set i
            { id := s.cluster.ids + 1
              process := { pid := s.cluster.pidOf (s.cluster.ids + 1), env := none }
              spawnEnv := { WORKER_ID := e.WORKER_ID } }
        | none => s.workers := by
  simp only [onWorkerExit, readWorkerId, h, Cluster.fork, emit, bind, andThen, pure]
  cases List.findIdx? (fun x => x.id == w.id) s.workers <;> simp

theorem onWorkerExit_no_discard (s : Primary) (w : Worker) (code : Option Nat)
    (signal : Option String) (s1 : Primary)
    (h : (onWorkerExit s w code signal).completion = .normal s1) :
    s1.workers.length = s.workers.length
      ∧ (onWorkerExit s w code signal).events.filter Event.isFork ≠ [] := by
  cases henv : w.process.env with
  | none =>
    rw [onWorkerExit_undefined_env s w code signal henv] at h
    cases h
  | some e =>
    obtain ⟨s2, hc, hw⟩ := onWorkerExit_completion s w code signal e henv
    rw [hc] at h
    cases h
    refine ⟨?_, ?_⟩
    · rw [hw]
      cases List.findIdx? (fun x => x.id == w.id) s.workers <;> simp
    · rw [onWorkerExit_events s w code signal e henv]
      simp [Event.isFork]

theorem killAll_eq (ws : List Worker) :
    killAll ws = ⟨ws.map (fun w => Event.kill w.id), .normal ()⟩ := by
  induction ws with
  | nil => rfl
  | cons w rest ih => simp [killAll, emit, bind, andThen, ih]

theorem onSIGINT_eq (s : Primary) :
    onSIGINT s =
      ⟨.logInfo "[Master] Received SIGINT, shutting down workers..."
          :: s.workers.map (fun w => Event.kill w.id),
        .normal { s with timers := s.timers ++ [{ delay := 1000, callback := exitCallback }] }⟩ := by
  simp [onSIGINT, killAll_eq, emit, bind, andThen, pure]

theorem onSIGTERM_eq (s : Primary) :
    onSIGTERM s =
      ⟨.logInfo "[Master] Received SIGTERM, shutting down workers..."
          :: s.workers.map (fun w => Event.kill w.id),
        .normal { s with timers := s.timers ++ [{ delay := 1000, callback := exitCallback }] }⟩ := by
  simp [onSIGTERM, killAll_eq, emit, bind, andThen, pure]

theorem spawned_env (c : Cluster) (i k : Nat) : (spawned c i k).process.env = none := rfl

theorem dispatch_workerExit_undefined_env (s : Primary) (w : Worker) (code : Option Nat)
    (signal : Option String) (h : w.process.env = none) :
    dispatch s (.workerExit w code signal) =
      ⟨[.logWarn
          s!"[Master] Worker {w.process.pid} died ({exitReason code signal}). Restarting...",
        .uncaught .typeError],
        .exited 1⟩ := by
  simp [dispatch, uncaughtEndsProcess, onWorkerExit_undefined_env s w code signal h]

theorem dispatch_signal (s : Primary) (o : Occurrence) (h : o.isSignal = true) :
    ∃ s1, (dispatch s o).completion = .normal s1 ∧ s1.workers = s.workers
      ∧ (dispatch s o).events.filter Event.isFork = [] := by
  cases o with
  | sigint =>
    refine ⟨{ s with timers := s.timers ++ [{ delay := 1000, callback := exitCallback }] },
      by simp only [dispatch, onSIGINT_eq, uncaughtEndsProcess], rfl, ?_⟩
    simp [dispatch, onSIGINT_eq, uncaughtEndsProcess, List.filter_map, Function.comp_def,
      Event.isFork]
  | sigterm =>
    refine ⟨{ s with timers := s.timers ++ [{ delay := 1000, callback := exitCallback }] },
      by simp only [dispatch, onSIGTERM_eq, uncaughtEndsProcess], rfl, ?_⟩
    simp [dispatch, onSIGTERM_eq, uncaughtEndsProcess, List.filter_map, Function.comp_def,
      Event.isFork]
  | workerExit w code signal => cases h
  | timerFires => cases h

theorem runPrimary_cons (s s1 : Primary) (o : Occurrence) (rest : List Occurrence)
    (h : (dispatch s o).completion = .normal s1) :
    runPrimary s (o :: rest) =
      ⟨(dispatch s o).events ++ (runPrimary s1 rest).events,
        (runPrimary s1 rest).completion⟩ := by
  simp only [runPrimary, bind, andThen, h]

/-- After any number of SIGINT/SIGTERM signals the primary is still running with
the same `workers` list, and a worker that then exits with `process.env`
undefined ends the run with the `exit` listener's uncaught `TypeError`. -/
theorem runPrimary_signals_then_exit (w : Worker) (code : Option Nat)
    (signal : Option String) (henv : w.process.env = none) :
    ∀ (sigs : List Occurrence) (s : Primary), (∀ o ∈ sigs, o.isSignal = true) →
      (runPrimary s (sigs ++ [.workerExit w code signal])).events =
          (runPrimary s sigs).events ++
            [.logWarn
              s!"[Master] Worker {w.process.pid} died ({exitReason code signal}). Restarting...",
              .uncaught .typeError]
        ∧ (runPrimary s (sigs ++ [.workerExit w code signal])).completion = .exited 1
        ∧ (runPrimary s sigs).events.filter Event.isFork = [] := by
  intro sigs
  induction sigs with
  | nil =>
    intro s _
    simp [runPrimary, bind, andThen, pure,
      dispatch_workerExit_undefined_env s w code signal henv]
  | cons o rest ih =>
    intro s hs
    obtain ⟨s1, hc, _, hf⟩ := dispatch_signal s o (hs o (List.mem_cons_self _ _))
    obtain ⟨h1, h2, h3⟩ := ih s1 (fun x hx => hs x (List.mem_cons_of_mem _ hx))
    rw [List.cons_append, runPrimary_cons s s1 o _ hc, runPrimary_cons s s1 o _ hc]
    refine ⟨?_, h2, ?_⟩
    · show (dispatch s o).events ++ _ = ((dispatch s o).events ++ _) ++ _
      rw [h1, List.append_assoc]
    · show ((dispatch s o).events ++ (runPrimary s1 rest).events).filter Event.isFork = []
      rw [List.filter_append, hf, h3]; rfl

/-! ## Claims on respawn and shutdown -/

/-- C4, evaluated on the code: for every worker the primary forked at start-up,
the `exit` handler logs its warning and then throws a `TypeError` while
evaluating `worker.process.env.WORKER_ID`; `cluster.fork` is not called, so no
replacement with the same identity is started. -/
theorem respawn_throws_for_forked_worker (cw : Option Nat) (cpus : Nat) (env : PrimaryEnv)
    (c : Cluster) (p : Primary) (w : Worker) (code : Option Nat) (signal : Option String)
    (h : (primaryMain cw cpus env c).completion = .normal p) (hw : w ∈ p.workers) :
    (onWorkerExit p w code signal).completion = .threw .typeError
      ∧ (onWorkerExit p w code signal).events.filter Event.isFork = [] := by
  have hok := allOk_of_normal cw cpus env c p h
  rw [primaryMain_ok cw cpus env c hok] at h
  cases h
  simp only [List.mem_map] at hw
  obtain ⟨k, _, rfl⟩ := hw
  rw [onWorkerExit_undefined_env _ _ code signal (spawned_env c 0 k)]
  exact ⟨rfl, rfl⟩

theorem respawn_throws_for_forked_worker_witness :
    (primaryMain (some 2) 4 sampleEnv sampleCluster).completion = .normal sampleRunning
      ∧ spawned sampleCluster 0 0 ∈ sampleRunning.workers
      ∧ (onWorkerExit sampleRunning (spawned sampleCluster 0 0) (some 1) none).completion =
          .threw .typeError :=
  ⟨rfl, by decide,
    (respawn_throws_for_forked_worker (some 2) 4 sampleEnv sampleCluster sampleRunning
      (spawned sampleCluster 0 0) (some 1) none rfl (by decide)).1⟩

/-- C8, evaluated on the code: with two workers running, the exit of worker 1
makes the `exit` handler throw before it forks or reaches `findIndex`; no
replacement is forked, the entry of worker 1 is never replaced, and the
uncaught exception ends the primary with exit code 1. -/
theorem worker_exit_replaces_nothing :
    (onWorkerExit sampleRunning (spawned sampleCluster 0 0) (some 1) none).completion =
        .threw .typeError
      ∧ (onWorkerExit sampleRunning (spawned sampleCluster 0 0) (some 1) none).events.filter
          Event.isFork = []
      ∧ dispatch sampleRunning (.workerExit (spawned sampleCluster 0 0) (some 1) none) =
          ⟨[.logWarn "[Master] Worker 1001 died (1). Restarting...", .uncaught .typeError],
            .exited 1⟩ :=
  ⟨rfl, rfl, by
    rw [dispatch_workerExit_undefined_env _ _ _ _ (spawned_env sampleCluster 0 0)]
    rfl⟩

/-- C5, as stated, fails: after SIGINT, when the killed worker 1 exits, the
orchestrator does not discard the handle and carry on; handling that exit ends
the primary with exit code 1, so there is no state of the primary in which the
handle of worker 1 has been discarded. -/
theorem exit_after_sigint_ends_primary :
    (runPrimary sampleRunning
        [.sigint, .workerExit (spawned sampleCluster 0 0) (some 0) none]).completion =
        .exited 1
      ∧ ¬ ∃ s1 : Primary,
          (runPrimary sampleRunning
            [.sigint, .workerExit (spawned sampleCluster 0 0) (some 0) none]).completion =
            .normal s1
          ∧ spawned sampleCluster 0 0 ∉ s1.workers := by
  have h : (runPrimary sampleRunning
      [.sigint, .workerExit (spawned sampleCluster 0 0) (some 0) none]).completion =
      .exited 1 := rfl
  refine ⟨h, ?_⟩
  rintro ⟨s1, hs1, _⟩
  rw [h] at hs1
  cases hs1

/-- C5, amended: after a successful start-up and any number of SIGINT/SIGTERM
signals, the exit of a forked worker never causes `cluster.fork` to be called
(no fork event anywhere in the run).  The handle is not discarded: the exit is
handled by the same listener, with the same events, as the same exit without
any signal (the "Restarting..." warning, then the uncaught `TypeError` that
ends the primary with code 1), and the listener has no discarding path at all:
whenever it returns, for any worker object, it has forked and the `workers`
list has the length it had. -/
theorem exit_after_signal_forks_nothing (cw : Option Nat) (cpus : Nat) (env : PrimaryEnv)
    (c : Cluster) (p : Primary) (w : Worker) (sigs : List Occurrence) (code : Option Nat)
    (signal : Option String)
    (h : (primaryMain cw cpus env c).completion = .normal p) (hw : w ∈ p.workers)
    (hs : ∀ o ∈ sigs, o.isSignal = true) :
    (runPrimary p (sigs ++ [.workerExit w code signal])).events.filter Event.isFork = []
      ∧ (runPrimary p (sigs ++ [.workerExit w code signal])).events =
          (runPrimary p sigs).events ++ (dispatch p (.workerExit w code signal)).events
      ∧ (dispatch p (.workerExit w code signal)).events =
          [.logWarn
            s!"[Master] Worker {w.process.pid} died ({exitReason code signal}). Restarting...",
            .uncaught .typeError]
      ∧ (runPrimary p (sigs ++ [.workerExit w code signal])).completion = .exited 1
      ∧ ∀ (s : Primary) (x : Worker) (s1 : Primary),
          (onWorkerExit s x code signal).completion = .normal s1 →
            s1.workers.length = s.workers.length
              ∧ (onWorkerExit s x code signal).events.filter Event.isFork ≠ [] := by
  have hok := allOk_of_normal cw cpus env c p h
  rw [primaryMain_ok cw cpus env c hok] at h
  cases h
  simp only [List.mem_map] at hw
  obtain ⟨k, _, rfl⟩ := hw
  have henv := spawned_env c 0 k
  obtain ⟨h1, h2, h3⟩ :=
    runPrimary_signals_then_exit (spawned c 0 k) code signal henv sigs _ hs
  have hd := dispatch_workerExit_undefined_env
    { cluster := { c with ids := c.ids + numWorkers cw cpus }
      workers := (List.range (numWorkers cw cpus)).map (spawned c 0)
      timers := [] } (spawned c 0 k) code signal henv
  refine ⟨?_, ?_, ?_, h2, fun s x s1 hx => onWorkerExit_no_discard s x code signal s1 hx⟩
  · rw [h1, List.filter_append, h3]; rfl
  · rw [h1, hd]
  · rw [hd]

theorem exit_after_signal_forks_nothing_witness :
    (primaryMain (some 2) 4 sampleEnv sampleCluster).completion = .normal sampleRunning
      ∧ spawned sampleCluster 0 1 ∈ sampleRunning.workers
      ∧ (runPrimary sampleRunning
          ([.sigint, .sigterm] ++ [.workerExit (spawned sampleCluster 0 1) (some 0) none])
        ).events.filter Event.isFork = [] :=
  ⟨rfl, by decide,
    (exit_after_signal_forks_nothing (some 2) 4 sampleEnv sampleCluster sampleRunning
      (spawned sampleCluster 0 1) [.sigint, .sigterm] (some 0) none rfl (by decide)
      (by decide)).1⟩

/-- C6, evaluated on the code: with two workers running, SIGINT (and likewise
SIGTERM) kills both workers and registers the 1000 ms timer; when killed
worker 1 then exits, the `exit` listener's uncaught `TypeError` ends the
primary with exit code 1, and the timer's `process.exit(0)` never runs.  Only
when no worker exit is handled before the timer fires does the primary exit
with code 0. -/
theorem shutdown_ends_with_code_one :
    runPrimary sampleRunning
        [.sigint, .workerExit (spawned sampleCluster 0 0) (some 0) none, .timerFires] =
        ⟨[.logInfo "[Master] Received SIGINT, shutting down workers...", .kill 1, .kill 2,
            .logWarn "[Master] Worker 1001 died (0). Restarting...", .uncaught .typeError],
          .exited 1⟩
      ∧ runPrimary sampleRunning
        [.sigterm, .workerExit (spawned sampleCluster 0 0) (some 0) none, .timerFires] =
        ⟨[.logInfo "[Master] Received SIGTERM, shutting down workers...", .kill 1, .kill 2,
            .logWarn "[Master] Worker 1001 died (0). Restarting...", .uncaught .typeError],
          .exited 1⟩
      ∧ Event.exit 0 ∉ (runPrimary sampleRunning
          [.sigint, .workerExit (spawned sampleCluster 0 0) (some 0) none, .timerFires]).events
      ∧ runPrimary sampleRunning [.sigint, .timerFires] =
        ⟨[.logInfo "[Master] Received SIGINT, shutting down workers...", .kill 1, .kill 2,
            .logInfo "[Master] Process exit", .exit 0],
          .exited 0⟩ := by
  have h1 : runPrimary sampleRunning
      [.sigint, .workerExit (spawned sampleCluster 0 0) (some 0) none, .timerFires] =
      ⟨[.logInfo "[Master] Received SIGINT, shutting down workers...", .kill 1, .kill 2,
          .logWarn "[Master] Worker 1001 died (0). Restarting...", .uncaught .typeError],
        .exited 1⟩ := rfl
  refine ⟨h1, rfl, ?_, rfl⟩
  rw [h1]
  decide

/-! ## Claims on the worker's start-up -/

/-- C7: when `initDatabase` rejects or the journal-mode pragma throws in a
worker, the worker logs "Error starting web server", its last action is
`process.exit(1)`, and `startWebserver` is never called. -/
theorem worker_storage_failure_exits (env : WorkerEnv)
    (h : env.initDatabaseOk = false ∨ env.pragmaOk = false) :
    (workerMain env).completion = .exited 1
      ∧ Event.logError "Error starting web server" ∈ (workerMain env).events
      ∧ (workerMain env).events.getLast? = some (.exit 1)
      ∧ Event.startWebserver ∉ (workerMain env).events
      ∧ Event.logInfo "Web server started" ∉ (workerMain env).events := by
  rcases env with ⟨a, b, r, ht, ssl, tls, hs⟩
  rcases h with h | h
  · simp only at h
    subst h
    simp [workerMain, workerTryBody, Eff.tryCatch, call, emit, processExit, bind, andThen]
  · simp only at h
    subst h
    cases a <;>
      simp [workerMain, workerTryBody, Eff.tryCatch, call, emit, processExit, bind, andThen]

theorem worker_storage_failure_exits_witness :
    (workerMain { sampleWorkerEnv with pragmaOk := false }).events =
      [.logInfo "Worker started", .initDatabase, .pragma,
        .logError "Error starting web server", .exit 1]
      ∧ Event.startWebserver ∉ (workerMain { sampleWorkerEnv with pragmaOk := false }).events :=
  ⟨rfl, (worker_storage_failure_exits { sampleWorkerEnv with pragmaOk := false }
    (Or.inr rfl)).2.2.2.1⟩

/-- C9, as stated, fails.  When `http.createServer`/`listen` throws inside
`createWebServer`, the worker exits with code 1 but the error it logs is
"failed to start server:", not "Error starting web server".  When
`createRoute` throws, the promise of the un-awaited `startWebserver` call is
rejected, the worker's `catch` does not run, "Web server started" is logged and
the worker does not exit. -/
theorem web_server_failure_not_caught :
    (workerMain { sampleWorkerEnv with httpOk := false }).events =
        [.logInfo "Worker started", .initDatabase, .pragma, .startWebserver, .createRoute,
          .httpListen, .logError "failed to start server:", .exit 1]
      ∧ Event.logError "Error starting web server" ∉
          (workerMain { sampleWorkerEnv with httpOk := false }).events
      ∧ workerMain { sampleWorkerEnv with createRouteOk := false } =
          ⟨[.logInfo "Worker started", .initDatabase, .pragma, .startWebserver, .createRoute,
              .logInfo "Web server started"],
            .normal (.rejected .web)⟩ :=
  ⟨rfl, by decide, rfl⟩

/-- C9, amended: in a worker whose database handle opened and whose
`createRoute` returned, whenever the body of `createWebServer` throws, the
worker logs "failed to start server:" (the `catch` inside `createWebServer`),
its last action is `process.exit(1)`, and it logs neither "Web server started"
nor "Error starting web server". -/
theorem create_web_server_failure_exits (env : WorkerEnv)
    (hdb : env.initDatabaseOk = true) (hpragma : env.pragmaOk = true)
    (hroute : env.createRouteOk = true) (hthrows : env.serverThrows = true) :
    (workerMain env).completion = .exited 1
      ∧ Event.logError "failed to start server:" ∈ (workerMain env).events
      ∧ (workerMain env).events.getLast? = some (.exit 1)
      ∧ Event.logInfo "Web server started" ∉ (workerMain env).events
      ∧ Event.logError "Error starting web server" ∉ (workerMain env).events := by
  rcases env with ⟨a, b, r, ht, ssl, tls, hs⟩
  simp only at hdb hpragma hroute
  subst hdb hpragma hroute
  cases ht <;> cases ssl <;> cases tls <;> cases hs <;>
    first
      | (simp [WorkerEnv.serverThrows] at hthrows; done)
      | decide

theorem create_web_server_failure_exits_witness :
    (workerMain { sampleWorkerEnv with readTlsOk := false }).events =
      [.logInfo "Worker started", .initDatabase, .pragma, .startWebserver, .createRoute,
        .httpListen, .readTlsFiles, .logError "failed to start server:", .exit 1]
      ∧ (workerMain { sampleWorkerEnv with readTlsOk := false }).completion = .exited 1 :=
  ⟨rfl, (create_web_server_failure_exits { sampleWorkerEnv with readTlsOk := false }
    rfl rfl rfl rfl).1⟩

/-! ## Lemmas on log rotation -/

theorem statAll_spec (dir : LogDir) : ∀ (names : List String),
    (∀ f ∈ names, (dir.mtime f).isSome = true) →
    ∃ stats, statAll dir names = some stats ∧ stats.map (fun x => x.name) = names ∧
      ∀ x ∈ stats, dir.mtime x.name = some x.time := by
  intro names
  induction names with
  | nil => intro _; exact ⟨[], rfl, rfl, by simp⟩
  | cons f rest ih =>
    intro h
    obtain ⟨stats, hs, hn, ht⟩ := ih (fun g hg => h g (List.mem_cons_of_mem _ hg))
    have hf := h f (List.mem_cons_self _ _)
    obtain ⟨t, htf⟩ := Option.isSome_iff_exists.mp hf
    refine ⟨{ name := f, time := t } :: stats, ?_, ?_, ?_⟩
    · simp [statAll, htf, hs]
    · simp [hn]
    · intro x hx
      rcases List.mem_cons.mp hx with rfl | hx
      · exact htf
      · exact ht x hx

theorem removeLoop_ok (dir : LogDir) : ∀ (l : List LogFile),
    (∀ x ∈ l, dir.removable x.name = true) →
    removeLoop dir l = { removed := l.map (fun x => x.name), failed := false } := by
  intro l
  induction l with
  | nil => intro _; rfl
  | cons x rest ih =>
    intro h
    have hx := h x (List.mem_cons_self _ _)
    have hr := ih (fun y hy => h y (List.mem_cons_of_mem _ hy))
    simp [removeLoop, hx, hr]

theorem sortByTime_perm (l : List LogFile) : (sortByTime l).Perm l :=
  List.perm_insertionSort _ l

theorem sortByTime_sorted (l : List LogFile) :
    (sortByTime l).Pairwise (fun a b => b.time ≤ a.time) := by
  haveI : IsTotal LogFile (fun a b => compareTime a b ≤ 0) :=
    ⟨fun a b => by simp only [compareTime]; omega⟩
  haveI : IsTrans LogFile (fun a b => compareTime a b ≤ 0) :=
    ⟨fun a b c hab hbc => by simp only [compareTime] at *; omega⟩
  have h := List.sorted_insertionSort (fun a b : LogFile => compareTime a b ≤ 0) l
  refine List.Pairwise.imp ?_ h
  intro a b hab
  simp only [compareTime] at hab
  omega

theorem filter_not_mem_drop (l : List String) (h : l.Nodup) (m : Nat) :
    l.filter (fun f => !(l.drop m).contains f) = l.take m := by
  have hl : l.take m ++ l.drop m = l := List.take_append_drop m l
  generalize l.take m = t at hl
  generalize l.drop m = d at hl
  subst hl
  have hdis := List.nodup_append.mp h
  rw [List.filter_append]
  have h1 : t.filter (fun f => !d.contains f) = t :=
    List.filter_eq_self.mpr (fun x hx => by
      have : x ∉ d := fun hd => hdis.2.2 hx hd
      simp [this])
  have h2 : d.filter (fun f => !d.contains f) = [] :=
    List.filter_eq_nil_iff.mpr (fun x hx => by simp [hx])
  rw [h1, h2, List.append_nil]

/-- What `rotateOldLogs` does when no file-system call fails: with `sorted` the
matching files ordered newest first, it removes the names of
`sorted.drop maxFiles`. -/
theorem rotateOldLogs_ok (dir : LogDir) (files : List String) (maxFiles : Nat)
    (hlist : dir.listing = some files)
    (hstat : ∀ f ∈ files, isLogName f = true → (dir.mtime f).isSome = true)
    (hrm : ∀ f ∈ files, isLogName f = true → dir.removable f = true) :
    ∃ sorted : List LogFile,
      (sorted.map (fun x => x.name)).Perm (files.filter isLogName)
        ∧ sorted.Pairwise (fun a b => b.time ≤ a.time)
        ∧ (∀ x ∈ sorted, dir.mtime x.name = some x.time)
        ∧ rotateOldLogs dir maxFiles =
            { removed := (sorted.map (fun x => x.name)).drop maxFiles, failed := false } := by
  obtain ⟨stats, hs, hn, ht⟩ := statAll_spec dir (files.filter isLogName) (fun f hf => by
    have := List.mem_filter.mp hf
    exact hstat f this.1 this.2)
  have hperm := sortByTime_perm stats
  have hmem : ∀ x ∈ sortByTime stats, x ∈ stats := fun x hx => hperm.mem_iff.mp hx
  refine ⟨sortByTime stats, ?_, sortByTime_sorted stats, fun x hx => ht x (hmem x hx), ?_⟩
  · rw [← hn]; exact hperm.map _
  · have hrem : ∀ x ∈ (sortByTime stats).drop maxFiles, dir.removable x.name = true := by
      intro x hx
      have hx1 : x ∈ stats := hmem x (List.mem_of_mem_drop hx)
      have hx2 : x.name ∈ files.filter isLogName := by
        rw [← hn]; exact List.mem_map_of_mem _ hx1
      have := List.mem_filter.mp hx2
      exact hrm _ this.1 this.2
    simp only [rotateOldLogs, hlist, hs]
    by_cases hlen : (sortByTime stats).length > maxFiles
    · simp [hlen, removeLoop_ok dir _ hrem, List.map_drop]
    · have hle : (sortByTime stats).length ≤ maxFiles := Nat.le_of_not_gt hlen
      simp [hlen]
      exact hle

/-- The rotation step of `initLogger` always passes a `maxFiles` of at least 1
(the configured value, or 7 when that is missing or zero), and runs exactly when
file logging is enabled. -/
theorem initLoggerRotation_eq (enableFile : Bool) (configMaxFiles : Option Nat) (dir : LogDir) :
    1 ≤ initLoggerMaxFiles configMaxFiles
      ∧ initLoggerRotation enableFile configMaxFiles dir =
          if enableFile then some (rotateOldLogs dir (initLoggerMaxFiles configMaxFiles))
          else none := by
  have hpos : 1 ≤ initLoggerMaxFiles configMaxFiles := by
    cases configMaxFiles with
    | none => simp [initLoggerMaxFiles]
    | some n =>
      by_cases hn : n = 0
      · simp [initLoggerMaxFiles, hn]
      · simp [initLoggerMaxFiles, hn]; omega
  refine ⟨hpos, ?_⟩
  have hdec : decide (initLoggerMaxFiles configMaxFiles > 0) = true := by
    simp; omega
  simp [initLoggerRotation, hdec]

/-! ## Claim on log rotation -/

/-- C10, as stated, fails: when `statSync` throws for a matching file (a
dangling symbolic link) the `catch` ends the rotation with nothing removed, and
when `fs.remove` rejects the loop stops there; in both runs more than
`maxFiles = 1` matching files remain. -/
theorem rotateOldLogs_stops_on_failure :
    rotateOldLogs brokenLogDir 1 = { removed := [], failed := true }
      ∧ ¬ ((remainingFiles sampleLogNames (rotateOldLogs brokenLogDir 1).removed).filter
          isLogName).length ≤ 1
      ∧ rotateOldLogs stuckLogDir 1 = { removed := ["app-5.log"], failed := true }
      ∧ ¬ ((remainingFiles sampleLogNames (rotateOldLogs stuckLogDir 1).removed).filter
          isLogName).length ≤ 1 := by
  decide

/-- C10, amended: for a directory listing (distinct names) that `fs.readdir`
returns, when `statSync` and `fs.remove` succeed on every matching file
(`app-*.log`), and for any `maxFiles`, `rotateOldLogs` does not reach its
`catch` and removes only matching files of the listing, each once; it removes
as many as exceed `maxFiles`, so that afterwards the matching files left
number `min maxFiles n` (at most `maxFiles`); every matching file left is at
least as recent as every removed one; nothing is removed when there are at
most `maxFiles` matching files; and the non-matching files are all left. -/
theorem rotateOldLogs_keeps_newest (dir : LogDir) (files : List String) (maxFiles : Nat)
    (hlist : dir.listing = some files) (hnodup : files.Nodup)
    (hstat : ∀ f ∈ files, isLogName f = true → (dir.mtime f).isSome = true)
    (hrm : ∀ f ∈ files, isLogName f = true → dir.removable f = true) :
    (rotateOldLogs dir maxFiles).failed = false
      ∧ (∀ f ∈ (rotateOldLogs dir maxFiles).removed, f ∈ files ∧ isLogName f = true)
      ∧ (rotateOldLogs dir maxFiles).removed.Nodup
      ∧ (rotateOldLogs dir maxFiles).removed.length = (files.filter isLogName).length - maxFiles
      ∧ ((remainingFiles files (rotateOldLogs dir maxFiles).removed).filter isLogName).length =
          min maxFiles (files.filter isLogName).length
      ∧ (∀ f ∈ (remainingFiles files (rotateOldLogs dir maxFiles).removed).filter isLogName,
          ∀ g ∈ (rotateOldLogs dir maxFiles).removed,
          ∀ tf tg, dir.mtime f = some tf → dir.mtime g = some tg → tg ≤ tf)
      ∧ ((files.filter isLogName).length ≤ maxFiles → (rotateOldLogs dir maxFiles).removed = [])
      ∧ (remainingFiles files (rotateOldLogs dir maxFiles).removed).filter
          (fun f => !isLogName f) = files.filter (fun f => !isLogName f) := by
  obtain ⟨sorted, hperm, hsorted, htime, hrot⟩ :=
    rotateOldLogs_ok dir files maxFiles hlist hstat hrm
  rw [hrot]
  simp only
  have hnd : (sorted.map (fun x => x.name)).Nodup :=
    hperm.nodup_iff.mpr (hnodup.filter _)
  have hlen : (sorted.map (fun x => x.name)).length = (files.filter isLogName).length :=
    hperm.length_eq
  have hrest : ((remainingFiles files ((sorted.map (fun x => x.name)).drop maxFiles)).filter
      isLogName).Perm ((sorted.map (fun x => x.name)).take maxFiles) := by
    have h1 : (remainingFiles files ((sorted.map (fun x => x.name)).drop maxFiles)).filter
        isLogName =
        (files.filter isLogName).filter
          (fun f => !((sorted.map (fun x => x.name)).drop maxFiles).contains f) := by
      simp only [remainingFiles, List.filter_filter]
      apply List.filter_congr
      intro x _
      exact Bool.and_comm _ _
    rw [h1, ← filter_not_mem_drop _ hnd maxFiles]
    exact (hperm.filter _).symm
  refine ⟨trivial, ?_, ?_, ?_, ?_, ?_, ?_, ?_⟩
  · intro f hf
    have := hperm.mem_iff.mp (List.mem_of_mem_drop hf)
    exact List.mem_filter.mp this
  · exact (List.drop_sublist _ _).nodup hnd
  · rw [List.length_drop, hlen]
  · rw [hrest.length_eq, List.length_take, hlen]
  · intro f hf g hg tf tg hmf hmg
    have hf1 : f ∈ (sorted.map (fun x => x.name)).take maxFiles := hrest.mem_iff.mp hf
    rw [← List.map_take] at hf1
    rw [← List.map_drop] at hg
    obtain ⟨x, hx, rfl⟩ := List.mem_map.mp hf1
    obtain ⟨y, hy, rfl⟩ := List.mem_map.mp hg
    have hsplit : (sorted.take maxFiles ++ sorted.drop maxFiles).Pairwise
        (fun a b => b.time ≤ a.time) := by
      rw [List.take_append_drop]; exact hsorted
    have hxy := (List.pairwise_append.mp hsplit).2.2 x hx y hy
    have hxt := htime x (List.mem_of_mem_take hx)
    have hyt := htime y (List.mem_of_mem_drop hy)
    rw [hxt] at hmf
    rw [hyt] at hmg
    cases hmf
    cases hmg
    exact hxy
  · intro hle
    apply List.drop_eq_nil_iff.mpr
    rw [hlen]; exact hle
  · simp only [remainingFiles, List.filter_filter]
    apply List.filter_congr
    intro f hf
    by_cases hlog : isLogName f = true
    · simp [hlog]
    · have hnot : f ∉ (sorted.map (fun x => x.name)).drop maxFiles := fun hmem =>
        hlog (List.mem_filter.mp (hperm.mem_iff.mp (List.mem_of_mem_drop hmem))).2
      simp [hlog, hnot]

theorem rotateOldLogs_keeps_newest_witness :
    sampleLogDir.listing = some sampleLogNames
      ∧ rotateOldLogs sampleLogDir 2 = { removed := ["app-3.log", "app-1.log"], failed := false }
      ∧ ((remainingFiles sampleLogNames (rotateOldLogs sampleLogDir 2).removed).filter
          isLogName).length = min 2 (sampleLogNames.filter isLogName).length :=
  ⟨rfl, by decide,
    (rotateOldLogs_keeps_newest sampleLogDir sampleLogNames 2 rfl (by decide)
      (by decide) (by decide)).2.2.2.2.1⟩

end FurImg
